import Mathlib

/-!
Verification of `src/bot/cogs/error_handler.py` (the `ErrorHandler` cog).

The file shallowly embeds the error-dispatch logic of `on_command_error` and
`handle_unexpected_error`: the coroutine side effects (message sends, help
invocations, log calls) become an explicit list of `Effect`s, the final
control outcome (normal return, the deliberate `raise e`, or an uncaught
Python-level exception such as `IndexError`/`AttributeError`) becomes a
`TermKind`, and the external collaborators (command registry, Tags cog,
permission checks, the API client) become fields of a `BotState` record.
`difflib.get_close_matches` (CPython standard library), which the handler
calls with `n = 1` and the default cutoff `0.6`, is embedded faithfully for
short junk-free strings, with the float ratio represented exactly as a
rational number.
-/

namespace PyBot

/-- Logging levels used by `error_handler.py` (`log.trace` / `log.debug` /
`log.warning` / `log.error`). -/
inductive LogLevel where
  | trace
  | debug
  | warning
  | error
  deriving DecidableEq

/-- Observable side effects of one run of the handler, in program order:
`ctx.send(...)` of plain text, the "Did you mean" embed of lines 120-123
(author string, description, `delete_after` seconds), `ctx.invoke(*help_command)`,
a tag message sent by `Tags.display_tag` when it returns truthy, and a log call. -/
inductive Effect where
  | send (content : String)
  | sendEmbed (author : String) (description : String) (deleteAfterSeconds : Nat)
  | invokeHelp (args : List String)
  | tagDisplayed (name : String)
  | logMsg (level : LogLevel) (msg : String)
  deriving DecidableEq

/-- How one run of the handler terminates: a normal return, the deliberate
`raise e` of `handle_unexpected_error` (line 185, carrying the error's class
name and message), or an uncaught Python-level exception escaping the handler
(the `IndexError` of line 106 or an `AttributeError` from calling a method on
`None`). -/
inductive TermKind where
  | normal
  | reraise (typeName : String) (msg : String)
  | pyError (kind : String)
  deriving DecidableEq

/-- The observable result of one dispatch: the effects emitted (in order),
the termination kind, and whether `ctx.invoked_from_error_handler` was set
on the context during handling (the line 83 mutation). -/
structure Outcome where
  effects : List Effect
  term : TermKind
  ctxMarkerSet : Bool
  deriving DecidableEq

/-- `ctx.command`: the resolved command object, with its `name` and the name
of its `parent` group when it has one (lines 57-61). -/
structure CmdRef where
  name : String
  parent : Option String
  deriving DecidableEq

/-- The slice of the invocation `Context` that `on_command_error` reads:
`ctx.channel.id`, `ctx.invoked_with`, `ctx.message.content`,
`ctx.message.author`, `ctx.command`, and the
`ctx.invoked_from_error_handler` marker attribute (absent = `false`). -/
structure Ctx where
  channelId : Nat
  invokedWith : String
  messageContent : String
  messageAuthor : String
  command : Option CmdRef
  invokedFromErrorHandler : Bool
  deriving DecidableEq

/-- One entry of `bot.walk_commands()`: a command with its `name`, `aliases`
and `hidden` flag (lines 102-104). -/
structure Command where
  name : String
  aliases : List String
  hidden : Bool
  deriving DecidableEq

/-- The inner error wrapped by a `CommandInvokeError` (`e.original`,
lines 154-171): either a `ResponseCodeError` from `bot.api` exposing the
numeric HTTP `status` and the JSON body of the response, or any other
exception, identified by its class name and message. -/
inductive InnerError where
  | api (status : Nat) (body : String)
  | nonApi (typeName : String) (msg : String)
  deriving DecidableEq

/-- The closed taxonomy of `CommandError`s distinguished by the `elif` chain
of `on_command_error`, each variant tagged with the payloads the handler
reads.  Variants that stand for a family of runtime classes
(`userInputError`, `checkFailure`, `other`) carry the concrete class name,
since the handler logs `e.__class__.__name__`.  The `msg` payload is `str(e)`;
the permission variants carry the rendering of `e.missing_perms`. -/
inductive ErrVariant where
  | commandNotFound (msg : String)
  | badArgument (msg : String)
  | userInputError (typeName : String) (msg : String)
  | noPrivateMessage (msg : String)
  | botMissingPermissions (missingPerms : String)
  | missingPermissions (missingPerms : String)
  | inChannelCheckFailure (msg : String)
  | checkFailure (typeName : String) (msg : String)
  | commandOnCooldown (msg : String)
  | disabledCommand (msg : String)
  | commandInvokeError (inner : InnerError)
  | other (typeName : String) (msg : String)
  deriving DecidableEq

/-- A dispatched error: the variant plus the optional `handled` attribute
set by local handlers upstream (`hasattr(e, "handled")`, line 71). -/
structure Err where
  handled : Bool
  variant : ErrVariant
  deriving DecidableEq

/-- The slice of the `Bot` that `on_command_error` consults:
`walk_commands()` (as a list), whether `get_command(name)` resolves
(line 107), whether `get_cog("Tags")` and `get_command("tags get")` resolve
(lines 78-79), the result that awaiting `can_run(ctx)` of a named command
would produce (either a boolean or a raised `CommandError`), and the result
of `Tags.display_tag(ctx, name)`. -/
structure BotState where
  commands : List Command
  getCommandFound : String → Bool
  tagsCogPresent : Bool
  tagsGetCommandPresent : Bool
  canRun : String → Ctx → Except Err Bool
  displayTag : Ctx → String → Bool

/-! ### Embedding of `difflib.get_close_matches(word, possibilities, 1)`

`error_handler.py` line 105 calls the CPython standard library:
`difflib.get_close_matches(command_name, raw_commands, 1)`, i.e. `n = 1` and
the default `cutoff = 0.6`.  The functions below reproduce
`SequenceMatcher.ratio()` (total size of the recursively chosen matching
blocks) and the top-1 selection of `heapq.nlargest` for short, junk-free
sequences (autojunk only affects sequences of length ≥ 200, far beyond
command names).  The float ratio `2.0 * M / T` compared against `0.6` is
represented exactly as the rational `2M / T`; for the short strings involved
the two comparisons coincide. -/

/-- Length of the common prefix of two character lists: the length of the
matching run starting at a given pair of positions. -/
def commonRun : List Char → List Char → Nat
  | a :: as, b :: bs => if a = b then commonRun as bs + 1 else 0
  | _, _ => 0

/-- Length of the matching run of `a`/`b` starting at positions `i`/`j`,
clamped to the windows ending at `ahi`/`bhi`. -/
def runLen (a b : List Char) (ahi bhi i j : Nat) : Nat :=
  min (commonRun (a.drop i) (b.drop j)) (min (ahi - i) (bhi - j))

/-- A matching block, as in `difflib.SequenceMatcher.find_longest_match`:
start index in `a`, start index in `b`, and size. -/
structure MatchBlock where
  i : Nat
  j : Nat
  size : Nat
  deriving DecidableEq

/-- `SequenceMatcher.find_longest_match(alo, ahi, blo, bhi)` for junk-free
sequences: the largest matching block inside the windows, and among equally
large ones the one with the smallest start in `a`, then the smallest start
in `b` — exactly the block the difflib dynamic program reports, since it
scans `i` then `j` in increasing order and replaces the champion only on a
strictly larger size. -/
def findLongestMatch (a b : List Char) (alo ahi blo bhi : Nat) : MatchBlock :=
  let cands := (List.range (ahi - alo)).flatMap fun di =>
    (List.range (bhi - blo)).map fun dj =>
      MatchBlock.mk (alo + di) (blo + dj) (runLen a b ahi bhi (alo + di) (blo + dj))
  cands.foldl (fun best c => if best.size < c.size then c else best) ⟨alo, blo, 0⟩

/-- Total size of the matching blocks of `SequenceMatcher.get_matching_blocks`:
recursively take the longest match and recurse on the windows to its left and
right.  The fuel bounds the recursion depth; each recursive level strictly
shrinks the window sum, so `a.length + b.length + 1` is always enough. -/
def totalMatchedAux : Nat → List Char → List Char → Nat → Nat → Nat → Nat → Nat
  | 0, _, _, _, _, _, _ => 0
  | fuel + 1, a, b, alo, ahi, blo, bhi =>
    let m := findLongestMatch a b alo ahi blo bhi
    if m.size = 0 then 0
    else
      totalMatchedAux fuel a b alo m.i blo m.j + m.size +
        totalMatchedAux fuel a b (m.i + m.size) ahi (m.j + m.size) bhi

/-- `M`: the total matched size underlying `SequenceMatcher(a, b).ratio()`. -/
def totalMatched (a b : List Char) : Nat :=
  totalMatchedAux (a.length + b.length + 1) a b 0 a.length 0 b.length

/-- The similarity ratio as an exact rational: `num / den` where `num = 2M`
and `den = len(a) + len(b)`; difflib's `_calculate_ratio` returns `1.0` when
the total length is zero.  Used only in specifications — the executable
comparisons below use integer cross-multiplication, which
`ratioLtB_iff`/`meetsCutoff_iff` prove equivalent. -/
def ratioQ (num den : Nat) : ℚ :=
  if den = 0 then 1 else (num : ℚ) / (den : ℚ)

/-- The `cutoff = 0.6` test of `get_close_matches` on an exact ratio:
`num / den ≥ 3/5`, with a zero denominator standing for ratio `1.0`. -/
def meetsCutoff (num den : Nat) : Bool :=
  if den = 0 then true else decide (3 * den ≤ 5 * num)

/-- Strict comparison of two ratios `n1/d1 < n2/d2` by cross-multiplication,
a zero denominator standing for ratio `1.0`. -/
def ratioLtB (n1 d1 n2 d2 : Nat) : Bool :=
  if d1 = 0 then (if d2 = 0 then false else decide (d2 < n2))
  else if d2 = 0 then decide (n1 < d1)
  else decide (n1 * d2 < n2 * d1)

/-- Equality of two ratios: neither is smaller. -/
def ratioEqB (n1 d1 n2 d2 : Nat) : Bool :=
  !ratioLtB n1 d1 n2 d2 && !ratioLtB n2 d2 n1 d1

/-- A cutoff-surviving candidate with its ratio numerator `2M` and
denominator `len(x) + len(word)`: the `(score, x)` pair accumulated by
`get_close_matches`. -/
structure Scored where
  word : String
  num : Nat
  den : Nat
  deriving DecidableEq

/-- Python string comparison (`x < y`): lexicographic on code points, a
proper prefix comparing smaller. -/
def charListLt : List Char → List Char → Bool
  | [], [] => false
  | [], _ :: _ => true
  | _ :: _, [] => false
  | a :: as, b :: bs => if a < b then true else if b < a then false else charListLt as bs

/-- Python tuple comparison `(score_c, word_c) > (score_best, word_best)`,
used by `heapq.nlargest(1, result)` (which keeps the first maximum and
replaces it only on a strictly greater tuple). -/
def betterThan (c best : Scored) : Bool :=
  ratioLtB best.num best.den c.num c.den ||
    (ratioEqB best.num best.den c.num c.den && charListLt best.word.data c.word.data)

/-- The `max` underlying `heapq.nlargest(1, result)`: fold keeping the
current champion unless a strictly greater `(score, word)` tuple appears. -/
def nlargest1 : Scored → List Scored → Scored
  | best, [] => best
  | best, c :: cs => nlargest1 (if betterThan c best then c else best) cs

/-- Score one possibility `x` against `word` (`a = x`, `b = word`, matching
`set_seq1(x)` / `set_seq2(word)`): keep it with its ratio when it reaches the
cutoff (the `real_quick_ratio`/`quick_ratio` pre-tests are upper bounds of
`ratio`, so difflib's conjunction of the three tests reduces to the `ratio`
test), drop it otherwise. -/
def scoreCandidate (word x : String) : Option Scored :=
  let num := 2 * totalMatched x.data word.data
  let den := x.length + word.length
  if meetsCutoff num den then some (Scored.mk x num den) else none

/-- `difflib.get_close_matches(word, possibilities, 1)` with the default
`cutoff = 0.6`: score every possibility, drop those under the cutoff, and
return the single largest survivor, or the empty list when none survives. -/
def get_close_matches1 (word : String) (possibilities : List String) : List String :=
  match possibilities.filterMap (scoreCandidate word) with
  | [] => []
  | c :: cs => [(nlargest1 c cs).word]

/-- Python `s.replace(old, new, 1)` on the character list of `s`, for a
non-empty `old`: replace the first occurrence of `old` by `new`. -/
def replaceFirstAux (old new : List Char) : List Char → List Char
  | [] => []
  | c :: cs =>
    if old.isPrefixOf (c :: cs) then new ++ (c :: cs).drop old.length
    else c :: replaceFirstAux old new cs

/-- Python `s.replace(old, new, 1)` (line 122): replace the first occurrence
of `old` in `s` by `new`; an empty `old` inserts `new` at the front. -/
def replaceFirst (s old new : String) : String :=
  if old.data = [] then ⟨new.data ++ s.data⟩
  else ⟨replaceFirstAux old.data new.data s.data⟩

/-! ### The handler -/

/-- Modelled from the spec: the id of the designated verification-only
channel (`bot.constants.Channels.verification`; `bot/constants.py` is not
among the sources).  The handler only ever compares `ctx.channel.id` against
it (line 77), so its concrete value is irrelevant. -/
def Channels_verification : Nat := 352442727016693763

/-- `str(ctx.command)` as it appears in the handler's log messages: a
discord.py `Command` prints its qualified name (parent name, space, name),
and a missing command prints as `None`. -/
def cmdStr (ctx : Ctx) : String :=
  match ctx.command with
  | none => "None"
  | some c =>
    match c.parent with
    | none => c.name
    | some p => p ++ " " ++ c.name

/-- Lines 57-69: the tuple later splatted into `ctx.invoke(*help_command)` —
the help command alone when no command resolved, `(help, command.name)` when
it has no parent, `(help, parent.name, command.name)` when it does. -/
def helpCommandArgs (ctx : Ctx) : List String :=
  match ctx.command with
  | none => ["help"]
  | some c =>
    match c.parent with
    | some p => ["help", p, c.name]
    | none => ["help", c.name]

/-- Lines 71-73: the error carries the `handled` attribute, so the handler
emits one trace-level log line and returns. -/
def handledOutcome (ctx : Ctx) : Outcome :=
  ⟨[Effect.logMsg LogLevel.trace
      ("Command " ++ cmdStr ctx ++ " had its error already handled locally; ignoring.")],
    TermKind.normal, false⟩

/-- Lines 175-185, `handle_unexpected_error(ctx, e)`: send the apology
message embedding the error's class name and message, log at error level
with the invoking author and the raw message content, then `raise e`. -/
def handle_unexpected_error (ctx : Ctx) (typeName msg : String) : Outcome :=
  ⟨[Effect.send
      ("Sorry, an unexpected error occurred. Please let us know!\n\n```" ++
        typeName ++ ": " ++ msg ++ "```"),
    Effect.logMsg LogLevel.error
      ("Error executing command invoked by " ++ ctx.messageAuthor ++ ": " ++
        ctx.messageContent)],
    TermKind.reraise typeName msg, false⟩

/-- Lines 125-173: the `elif` chain below the `CommandNotFound` branch.  A
`CommandNotFound` that reaches this chain (because the context already
carries the fallback marker) matches none of the `elif` arms — it is not a
`BadArgument`, `UserInputError`, `CheckFailure` subclass, or
`CommandInvokeError` — and falls into the final `else` of line 172.  For the
400 case, line 162 log-formats the awaited response body into the message
(the `%r` rendering of the body is abstracted to the body string). -/
def dispatchChain (ctx : Ctx) : ErrVariant → Outcome
  | ErrVariant.commandNotFound msg => handle_unexpected_error ctx "CommandNotFound" msg
  | ErrVariant.badArgument msg =>
    ⟨[Effect.send ("Bad argument: " ++ msg ++ "\n"),
      Effect.invokeHelp (helpCommandArgs ctx)], TermKind.normal, false⟩
  | ErrVariant.userInputError typeName msg =>
    ⟨[Effect.send "Something about your input seems off. Check the arguments:",
      Effect.invokeHelp (helpCommandArgs ctx),
      Effect.logMsg LogLevel.debug
        ("Command " ++ cmdStr ctx ++ " invoked by " ++ ctx.messageAuthor ++
          " with error " ++ typeName ++ ": " ++ msg)], TermKind.normal, false⟩
  | ErrVariant.noPrivateMessage _ =>
    ⟨[Effect.send "Sorry, this command can't be used in a private message!"],
      TermKind.normal, false⟩
  | ErrVariant.botMissingPermissions missingPerms =>
    ⟨[Effect.send "Sorry, it looks like I don't have the permissions I need to do that.",
      Effect.logMsg LogLevel.warning
        ("The bot is missing permissions to execute command " ++ cmdStr ctx ++ ": " ++
          missingPerms)], TermKind.normal, false⟩
  | ErrVariant.missingPermissions missingPerms =>
    ⟨[Effect.logMsg LogLevel.debug
        (ctx.messageAuthor ++ " is missing permissions to invoke command " ++
          cmdStr ctx ++ ": " ++ missingPerms)], TermKind.normal, false⟩
  | ErrVariant.inChannelCheckFailure msg =>
    ⟨[Effect.send msg], TermKind.normal, false⟩
  | ErrVariant.checkFailure typeName msg =>
    ⟨[Effect.logMsg LogLevel.debug
        ("Command " ++ cmdStr ctx ++ " invoked by " ++ ctx.messageAuthor ++
          " with error " ++ typeName ++ ": " ++ msg)], TermKind.normal, false⟩
  | ErrVariant.commandOnCooldown msg =>
    ⟨[Effect.logMsg LogLevel.debug
        ("Command " ++ cmdStr ctx ++ " invoked by " ++ ctx.messageAuthor ++
          " with error CommandOnCooldown: " ++ msg)], TermKind.normal, false⟩
  | ErrVariant.disabledCommand msg =>
    ⟨[Effect.logMsg LogLevel.debug
        ("Command " ++ cmdStr ctx ++ " invoked by " ++ ctx.messageAuthor ++
          " with error DisabledCommand: " ++ msg)], TermKind.normal, false⟩
  | ErrVariant.commandInvokeError inner =>
    match inner with
    | InnerError.api status body =>
      if status = 404 then
        ⟨[Effect.send "There does not seem to be anything matching your query."],
          TermKind.normal, false⟩
      else if status = 400 then
        ⟨[Effect.logMsg LogLevel.debug
            ("API responded with 400 for command " ++ cmdStr ctx ++ ": " ++ body ++ "."),
          Effect.send "According to the API, your request is malformed."],
          TermKind.normal, false⟩
      else if 500 ≤ status ∧ status < 600 then
        ⟨[Effect.send "Sorry, there seems to be an internal issue with the API.",
          Effect.logMsg LogLevel.warning
            ("API responded with " ++ toString status ++ " for command " ++ cmdStr ctx)],
          TermKind.normal, false⟩
      else
        ⟨[Effect.send
            ("Got an unexpected status code from the API (`" ++ toString status ++ "`)."),
          Effect.logMsg LogLevel.warning
            ("Unexpected API response for command " ++ cmdStr ctx ++ ": " ++
              toString status)], TermKind.normal, false⟩
    | InnerError.nonApi typeName msg => handle_unexpected_error ctx typeName msg
  | ErrVariant.other typeName msg => handle_unexpected_error ctx typeName msg

/-- Lines 101-104: every non-hidden command's name followed by its aliases,
accumulated in walk order. -/
def rawCommandsOf (cmds : List Command) : List String :=
  cmds.foldl (fun acc cmd => if cmd.hidden then acc else acc ++ cmd.name :: cmd.aliases) []

/-- Lines 77-123: the `CommandNotFound` fallback body, entered when the error
is a `CommandNotFound` and the context does not yet carry the
`invoked_from_error_handler` marker.  `recurse` is the recursive
re-dispatch of line 92 (`await self.on_command_error(ctx, tag_error)`),
always applied to the marker-carrying context.

Faithfulness notes, keyed to the source:
* line 77: in the verification channel the whole body is skipped and,
  the outer `elif` chain having already matched, nothing at all happens;
* line 80: the guard returns only when the Tags cog AND the "tags get"
  command are both missing; with exactly one present the body proceeds and
  the next use of the missing collaborator raises an `AttributeError`
  (`None.can_run` at line 87, `None.display_tag` at line 95);
* line 83: the marker is set before any check runs;
* lines 87-93: `await tags_get_command.can_run(ctx)` — a `False` result
  logs and returns, a raised `CommandError` logs and re-dispatches;
* lines 105-106: an empty `get_close_matches` result makes
  `similar_command_data[0]` raise an uncaught `IndexError`;
* line 107: if `get_command` does not resolve the matched name (e.g. it was
  a subcommand name), `similar_command` is `None` and the attribute access
  `similar_command.can_run` at line 111 raises an `AttributeError`;
* lines 110-117: `similar_command.can_run(ctx)` is NOT awaited: the
  coroutine object is truthy, so `if not ...` is never taken and no
  `CommandError` can be caught — the branch falls through to the suggestion
  unconditionally, and `st.canRun` is never consulted here;
* lines 119-123: the embed replaces the first occurrence of the mistyped
  name in the message content by the matched name, `delete_after=7.0`. -/
def fallback (recurse : Ctx → Err → Option Outcome) (st : BotState) (ctx : Ctx) :
    Option Outcome :=
  if ctx.channelId = Channels_verification then some ⟨[], TermKind.normal, false⟩
  else if st.tagsCogPresent = false ∧ st.tagsGetCommandPresent = false then
    some ⟨[], TermKind.normal, false⟩
  else
    let ctx' : Ctx := { ctx with invokedFromErrorHandler := true }
    if st.tagsGetCommandPresent = false then some ⟨[], TermKind.pyError "AttributeError", true⟩
    else
      match st.canRun "tags get" ctx' with
      | Except.error tagError =>
        match recurse ctx' tagError with
        | none => none
        | some o =>
          some ⟨Effect.logMsg LogLevel.debug
              "Cancelling attempt to fall back to a tag due to failed checks." :: o.effects,
            o.term, true⟩
      | Except.ok false =>
        some ⟨[Effect.logMsg LogLevel.debug
            "Cancelling attempt to fall back to a tag due to failed checks."],
          TermKind.normal, true⟩
      | Except.ok true =>
        if st.tagsCogPresent = false then some ⟨[], TermKind.pyError "AttributeError", true⟩
        else if st.displayTag ctx' ctx.invokedWith then
          some ⟨[Effect.tagDisplayed ctx.invokedWith], TermKind.normal, true⟩
        else
          match get_close_matches1 ctx.invokedWith (rawCommandsOf st.commands) with
          | [] => some ⟨[], TermKind.pyError "IndexError", true⟩
          | similarName :: _ =>
            if st.getCommandFound similarName then
              some ⟨[Effect.sendEmbed "Did you mean:"
                  (replaceFirst ctx.messageContent ctx.invokedWith similarName) 7],
                TermKind.normal, true⟩
            else some ⟨[], TermKind.pyError "AttributeError", true⟩

/-- Lines 36-173, `on_command_error(ctx, e)`, with explicit fuel bounding
the depth of the line 92 self-call (`none` = fuel exhausted; the fuel is an
artifact of the embedding — `fuel_two_suffices` below shows depth 2 always
suffices, because the re-dispatch only ever happens on a marker-carrying
context, for which the `CommandNotFound` branch is skipped).  Order of the
source: the `handled` short-circuit of line 71 first, then the
`CommandNotFound`-and-unmarked test of line 76 guarding the fallback body,
then the `elif` chain. -/
def onCommandErrorFuel : Nat → BotState → Ctx → Err → Option Outcome
  | 0, _, _, _ => none
  | n + 1, st, ctx, e =>
    if e.handled then some (handledOutcome ctx)
    else
      match e.variant with
      | ErrVariant.commandNotFound msg =>
        if ctx.invokedFromErrorHandler then
          some (dispatchChain ctx (ErrVariant.commandNotFound msg))
        else fallback (onCommandErrorFuel n st) st ctx
      | v => some (dispatchChain ctx v)

/-- `on_command_error(ctx, e)`: the fueled dispatch at depth 2, which by
`fuel_two_suffices` is total and equal to every deeper unrolling. -/
def on_command_error (st : BotState) (ctx : Ctx) (e : Err) : Outcome :=
  (onCommandErrorFuel 2 st ctx e).getD ⟨[], TermKind.normal, false⟩

/-! ### Helper lemmas -/

/-- On a context that already carries the fallback marker, one unit of fuel
decides the dispatch completely: the `CommandNotFound` branch is skipped, so
the handler is the `handled` short-circuit or the `elif` chain and never
recurses. -/
theorem marked_skips_fallback (n : Nat) (st : BotState) (ctx : Ctx) (e : Err)
    (h : ctx.invokedFromErrorHandler = true) :
    onCommandErrorFuel (n + 1) st ctx e =
      some (if e.handled then handledOutcome ctx else dispatchChain ctx e.variant) := by
  rcases e with ⟨hd, v⟩
  cases hd <;> cases v <;> simp [onCommandErrorFuel, h]

/-- The fallback body only consumes fuel through the line 92 re-dispatch,
which happens on the marker-carrying context; hence its result does not
depend on the fuel beyond one unit. -/
theorem fallback_fuel_indep (st : BotState) (ctx : Ctx) (n : Nat) :
    fallback (onCommandErrorFuel (n + 1) st) st ctx =
      fallback (onCommandErrorFuel 1 st) st ctx := by
  have hrw : ∀ er, onCommandErrorFuel (n + 1) st
      { ctx with invokedFromErrorHandler := true } er =
      onCommandErrorFuel 1 st { ctx with invokedFromErrorHandler := true } er := by
    intro er
    rw [marked_skips_fallback n st _ er rfl]
    rw [show (1 : Nat) = 0 + 1 from rfl, marked_skips_fallback 0 st _ er rfl]
  unfold fallback
  simp only [hrw]

/-- Fuel 2 and any deeper unrolling of `on_command_error` agree. -/
theorem fuel_two_suffices (st : BotState) (ctx : Ctx) (e : Err) (n : Nat) :
    onCommandErrorFuel (n + 2) st ctx e = onCommandErrorFuel 2 st ctx e := by
  rcases e with ⟨hd, v⟩
  cases hd
  case true => simp [onCommandErrorFuel]
  case false =>
    cases v <;> simp [onCommandErrorFuel]
    case commandNotFound m =>
      cases hm : ctx.invokedFromErrorHandler <;> simp [hm]
      exact fallback_fuel_indep st ctx (n + 1) ▸ fallback_fuel_indep st ctx 0 ▸ rfl

/-- With one unit of fuel for the re-dispatch, the fallback body always
returns a result. -/
theorem fallback_fuel1_isSome (st : BotState) (ctx : Ctx) :
    fallback (onCommandErrorFuel 1 st) st ctx ≠ none := by
  have hrw : ∀ er, onCommandErrorFuel 1 st
      { ctx with invokedFromErrorHandler := true } er =
      some (if er.handled then handledOutcome { ctx with invokedFromErrorHandler := true }
        else dispatchChain { ctx with invokedFromErrorHandler := true } er.variant) := by
    intro er
    rw [show (1 : Nat) = 0 + 1 from rfl, marked_skips_fallback 0 st _ er rfl]
  unfold fallback
  simp only [hrw]
  repeat' split
  all_goals simp

/-- Fuel 2 always yields a result: the dispatch is total. -/
theorem fuel2_isSome (st : BotState) (ctx : Ctx) (e : Err) :
    onCommandErrorFuel 2 st ctx e ≠ none := by
  rcases e with ⟨hd, v⟩
  cases hd
  case true => simp [onCommandErrorFuel]
  case false =>
    cases v <;> simp [onCommandErrorFuel]
    case commandNotFound m =>
      cases hm : ctx.invokedFromErrorHandler <;> simp [hm]
      exact fallback_fuel1_isSome st ctx

/-- Unpacking a successful `scoreCandidate`: the survivor is the candidate
itself, its score fields are the ratio of the candidate against the word,
and the cutoff test passed. -/
theorem scoreCandidate_mem {word x : String} {s : Scored}
    (h : scoreCandidate word x = some s) :
    s.word = x ∧ s.num = 2 * totalMatched x.data word.data ∧
      s.den = x.length + word.length ∧ meetsCutoff s.num s.den = true := by
  simp only [scoreCandidate] at h
  split at h
  · cases h
    exact ⟨rfl, rfl, rfl, by assumption⟩
  · cases h

/-- A candidate that reaches the cutoff survives `scoreCandidate`. -/
theorem scoreCandidate_of_cutoff {word y : String}
    (h : meetsCutoff (2 * totalMatched y.data word.data) (y.length + word.length) = true) :
    scoreCandidate word y =
      some ⟨y, 2 * totalMatched y.data word.data, y.length + word.length⟩ := by
  simp only [scoreCandidate]
  rw [if_pos h]

/-- The top-1 fold returns its seed or one of the list elements. -/
theorem nlargest1_mem (b : Scored) (l : List Scored) :
    nlargest1 b l = b ∨ nlargest1 b l ∈ l := by
  induction l generalizing b with
  | nil => left; rfl
  | cons c cs ih =>
    rw [nlargest1]
    rcases ih (if betterThan c b then c else b) with h | h
    · rw [h]
      split
      · right; exact List.mem_cons_self _ _
      · left; rfl
    · right; exact List.mem_cons_of_mem _ h

/-- The executable strict ratio comparison agrees with the rational one. -/
theorem ratioLtB_iff (n1 d1 n2 d2 : Nat) :
    ratioLtB n1 d1 n2 d2 = true ↔ ratioQ n1 d1 < ratioQ n2 d2 := by
  unfold ratioLtB ratioQ
  by_cases h1 : d1 = 0 <;> by_cases h2 : d2 = 0
  · simp [h1, h2]
  · have hd2 : (0 : ℚ) < (d2 : ℚ) := by exact_mod_cast Nat.pos_of_ne_zero h2
    simp only [h1, h2, if_true, if_false, decide_eq_true_eq]
    rw [one_lt_div hd2]
    exact_mod_cast Iff.rfl
  · have hd1 : (0 : ℚ) < (d1 : ℚ) := by exact_mod_cast Nat.pos_of_ne_zero h1
    simp only [h1, h2, if_true, if_false, decide_eq_true_eq]
    rw [div_lt_one hd1]
    exact_mod_cast Iff.rfl
  · have hd1 : (0 : ℚ) < (d1 : ℚ) := by exact_mod_cast Nat.pos_of_ne_zero h1
    have hd2 : (0 : ℚ) < (d2 : ℚ) := by exact_mod_cast Nat.pos_of_ne_zero h2
    simp only [h1, h2, if_true, if_false, decide_eq_true_eq]
    rw [div_lt_div_iff₀ hd1 hd2]
    exact_mod_cast Iff.rfl

/-- The executable cutoff test agrees with the rational `0.6` bound. -/
theorem meetsCutoff_iff (num den : Nat) :
    meetsCutoff num den = true ↔ (3 : ℚ) / 5 ≤ ratioQ num den := by
  unfold meetsCutoff ratioQ
  by_cases h : den = 0
  · simp only [h, if_true]
    norm_num
  · have hd : (0 : ℚ) < (den : ℚ) := by exact_mod_cast Nat.pos_of_ne_zero h
    simp only [h, if_false, decide_eq_true_eq]
    rw [div_le_div_iff₀ (by norm_num) hd, mul_comm ((num : ℚ)) 5]
    exact_mod_cast Iff.rfl

/-- One fold step never decreases the champion's score. -/
theorem betterThan_step (c b : Scored) :
    ratioQ b.num b.den ≤
        ratioQ (if betterThan c b then c else b).num (if betterThan c b then c else b).den ∧
      ratioQ c.num c.den ≤
        ratioQ (if betterThan c b then c else b).num (if betterThan c b then c else b).den := by
  split
  case isTrue h =>
    refine ⟨?_, le_refl _⟩
    simp only [betterThan, Bool.or_eq_true, Bool.and_eq_true] at h
    rcases h with h | ⟨h, _⟩
    · exact le_of_lt ((ratioLtB_iff _ _ _ _).mp h)
    · simp only [ratioEqB, Bool.and_eq_true, Bool.not_eq_true'] at h
      have h2 : ¬ratioQ c.num c.den < ratioQ b.num b.den := by
        rw [← ratioLtB_iff]
        simp [h.2]
      exact le_of_not_lt h2
  case isFalse h =>
    refine ⟨le_refl _, ?_⟩
    simp only [betterThan, Bool.or_eq_true, Bool.and_eq_true, not_or, not_and] at h
    have h1 : ¬ratioQ b.num b.den < ratioQ c.num c.den := by
      rw [← ratioLtB_iff]
      simp [h.1]
    exact le_of_not_lt h1

/-- The top-1 fold returns a score-maximal element: its score dominates the
seed's and every list element's. -/
theorem nlargest1_ge (b : Scored) (l : List Scored) :
    ratioQ b.num b.den ≤ ratioQ (nlargest1 b l).num (nlargest1 b l).den ∧
      ∀ c ∈ l, ratioQ c.num c.den ≤ ratioQ (nlargest1 b l).num (nlargest1 b l).den := by
  induction l generalizing b with
  | nil => exact ⟨le_refl _, by simp⟩
  | cons c cs ih =>
    rw [nlargest1]
    obtain ⟨ih1, ih2⟩ := ih (if betterThan c b then c else b)
    obtain ⟨hb, hc⟩ := betterThan_step c b
    refine ⟨le_trans hb ih1, ?_⟩
    intro d hd
    rcases List.mem_cons.mp hd with rfl | hd
    · exact le_trans hc ih1
    · exact ih2 d hd

/-- Past the two no-op guards (verification channel; both collaborators
absent), every branch of the fallback body yields a result that either
emitted an effect or terminated abnormally, and the context marker is set. -/
theorem fallback_shape (st : BotState) (ctx : Ctx)
    (hchan : ¬ctx.channelId = Channels_verification)
    (hcc : ¬(st.tagsCogPresent = false ∧ st.tagsGetCommandPresent = false)) :
    ∃ o, fallback (onCommandErrorFuel 1 st) st ctx = some o ∧
      (o.effects ≠ [] ∨ o.term ≠ TermKind.normal) ∧ o.ctxMarkerSet = true := by
  have hrw : ∀ er, onCommandErrorFuel 1 st
      { ctx with invokedFromErrorHandler := true } er =
      some (if er.handled then handledOutcome { ctx with invokedFromErrorHandler := true }
        else dispatchChain { ctx with invokedFromErrorHandler := true } er.variant) := by
    intro er
    rw [show (1 : Nat) = 0 + 1 from rfl, marked_skips_fallback 0 st _ er rfl]
  unfold fallback
  rw [if_neg hchan, if_neg hcc]
  simp only [hrw]
  repeat' split
  all_goals exact ⟨_, rfl, by simp, rfl⟩

/-- On an unmarked context, dispatching an unhandled `CommandNotFound` is
exactly the fallback body (with one unit of fuel for the re-dispatch). -/
theorem unmarked_cnf_eq (st : BotState) (ctx : Ctx) (m : String)
    (hm : ctx.invokedFromErrorHandler = false) :
    on_command_error st ctx ⟨false, ErrVariant.commandNotFound m⟩ =
      (fallback (onCommandErrorFuel 1 st) st ctx).getD
        ⟨[], TermKind.normal, false⟩ := by
  unfold on_command_error
  have hstep : onCommandErrorFuel 2 st ctx ⟨false, ErrVariant.commandNotFound m⟩ =
      if ctx.invokedFromErrorHandler then
        some (dispatchChain ctx (ErrVariant.commandNotFound m))
      else fallback (onCommandErrorFuel 1 st) st ctx := rfl
  rw [hstep, hm]
  simp

/-! ### Concrete fixtures for witnesses and counterexamples -/

/-- A plain context: channel 1 (not the verification channel), a mistyped
`!hlep me` invocation by user `aru`, no resolved command, no marker. -/
def sampleCtx : Ctx := ⟨1, "hlep", "!hlep me", "aru", none, false⟩

/-- `sampleCtx` with the `invoked_from_error_handler` marker already set. -/
def markedCtx : Ctx := ⟨1, "hlep", "!hlep me", "aru", none, true⟩

/-- A context whose channel is the verification channel. -/
def verifCtx : Ctx := ⟨Channels_verification, "hlep", "!hlep me", "aru", none, false⟩

/-- A context invoking the mistyped name `abc`. -/
def abcCtx : Ctx := ⟨1, "abc", "!abc", "aru", none, false⟩

/-- A context invoking the well-formed name `help` (still unknown to the
registry fixtures below). -/
def helpCtx : Ctx := ⟨1, "help", "!help me", "aru", none, false⟩

/-- A registry with one visible command `help`; `get_cog("Tags")` and
`get_command("tags get")` resolve; `can_run` (were it awaited) allows only
the tag-get command and denies every other command; no tag displays. -/
def sampleState : BotState :=
  ⟨[⟨"help", [], false⟩], fun _ => true, true, true,
    fun n _ => Except.ok (n == "tags get"), fun _ _ => false⟩

/-- A registry whose only visible command is `zzzz` (similar to nothing);
checks all pass and no tag displays. -/
def zState : BotState :=
  ⟨[⟨"zzzz", [], false⟩], fun _ => true, true, true,
    fun _ _ => Except.ok true, fun _ _ => false⟩

/-- A bot with neither the Tags cog nor a `tags get` command. -/
def noTagsState : BotState :=
  ⟨[], fun _ => true, false, false, fun _ _ => Except.ok true, fun _ _ => false⟩

/-- A bot with the Tags cog present but no `tags get` command — exactly one
of the two collaborators the line 80 guard tests. -/
def cogOnlyState : BotState :=
  ⟨[], fun _ => true, true, false, fun _ _ => Except.ok true, fun _ _ => false⟩

/-! ### Claims -/

/-- C1: in `sampleState`, awaiting `can_run` of the fuzzy-matched command
`help` would return `False` (`canRun "help" = ok false`), and the spec
demands the suggestion be withheld (log and stop) — yet the code sends the
"Did you mean" suggestion and logs nothing, because line 111 calls
`similar_command.can_run(ctx)` without `await`: the truthy coroutine object
makes `if not ...` unreachable and leaves no `CommandError` to catch.  This
theorem evaluates the handler at the failing input. -/
theorem c1_unawaited_check_sends_suggestion :
    get_close_matches1 sampleCtx.invokedWith (rawCommandsOf sampleState.commands) = ["help"] ∧
    sampleState.canRun "help" { sampleCtx with invokedFromErrorHandler := true } =
      Except.ok false ∧
    on_command_error sampleState sampleCtx ⟨false, ErrVariant.commandNotFound "m"⟩ =
      ⟨[Effect.sendEmbed "Did you mean:" "!help me" 7], TermKind.normal, true⟩ :=
  ⟨by decide, by rfl, by decide⟩

/-- C2 (amended): for every bot state, context, and error variant carrying
the `handled` marker, the handler sends no message and takes no action
beyond emitting one trace-level log entry (line 72), then returns normally. -/
theorem c2_handled_only_trace_log (st : BotState) (ctx : Ctx) (v : ErrVariant) :
    on_command_error st ctx ⟨true, v⟩ =
      ⟨[Effect.logMsg LogLevel.trace
          ("Command " ++ cmdStr ctx ++ " had its error already handled locally; ignoring.")],
        TermKind.normal, false⟩ :=
  rfl

/-- C2 counterexample: at a concrete handled error, the handler does emit a
log entry (the line 72 trace message), contradicting "emits no log entry:
the handler is a no-op". -/
theorem c2_trace_log_emitted :
    (on_command_error sampleState sampleCtx ⟨true, ErrVariant.badArgument "x"⟩).effects =
      [Effect.logMsg LogLevel.trace
        "Command None had its error already handled locally; ignoring."] :=
  rfl

/-- C8: recursive re-dispatch is bounded by the context marker.  A call
stack of depth 2 (the original dispatch plus one re-dispatch) always
completes (`≠ none`), and allowing any deeper recursion never changes the
result — i.e. the handler recurses at most one extra level before reaching
a terminal branch, whatever the state, context, and error. -/
theorem c8_recursion_bounded (st : BotState) (ctx : Ctx) (e : Err) (n : Nat) :
    onCommandErrorFuel (n + 2) st ctx e = onCommandErrorFuel 2 st ctx e ∧
      onCommandErrorFuel 2 st ctx e ≠ none :=
  ⟨fuel_two_suffices st ctx e n, fuel2_isSome st ctx e⟩

/-- C9: the Unexpected-Error Responder sends a message embedding the error's
type name and message, logs an error-level entry with the invoking user and
the raw message text, and re-raises unconditionally; and every error with no
matching dispatch case — the `other` variant, and a `CommandInvokeError`
wrapping a non-API inner error — reaches exactly this responder. -/
theorem c9_unexpected_responder :
    (∀ (ctx : Ctx) (tn m : String),
      handle_unexpected_error ctx tn m =
        ⟨[Effect.send
            ("Sorry, an unexpected error occurred. Please let us know!\n\n```" ++
              tn ++ ": " ++ m ++ "```"),
          Effect.logMsg LogLevel.error
            ("Error executing command invoked by " ++ ctx.messageAuthor ++ ": " ++
              ctx.messageContent)],
          TermKind.reraise tn m, false⟩) ∧
    (∀ (st : BotState) (ctx : Ctx) (tn m : String),
      on_command_error st ctx ⟨false, ErrVariant.other tn m⟩ =
        handle_unexpected_error ctx tn m) ∧
    (∀ (st : BotState) (ctx : Ctx) (tn m : String),
      on_command_error st ctx
          ⟨false, ErrVariant.commandInvokeError (InnerError.nonApi tn m)⟩ =
        handle_unexpected_error ctx tn m) :=
  ⟨fun _ _ _ => rfl, fun _ _ _ _ => rfl, fun _ _ _ _ => rfl⟩

/-- C10 (amended): on a context already carrying the fallback marker, a
`CommandNotFound` error that does not carry the `handled` marker matches no
branch of the dispatch chain and is delegated to the Unexpected-Error
Responder: message sent, error-level log, re-raise. -/
theorem c10_marked_cnf_delegated (st : BotState) (ctx : Ctx) (m : String)
    (hmark : ctx.invokedFromErrorHandler = true) :
    on_command_error st ctx ⟨false, ErrVariant.commandNotFound m⟩ =
      ⟨[Effect.send
          ("Sorry, an unexpected error occurred. Please let us know!\n\n```CommandNotFound: " ++
            m ++ "```"),
        Effect.logMsg LogLevel.error
          ("Error executing command invoked by " ++ ctx.messageAuthor ++ ": " ++
            ctx.messageContent)],
        TermKind.reraise "CommandNotFound" m, false⟩ := by
  simp [on_command_error, onCommandErrorFuel, hmark, dispatchChain, handle_unexpected_error]

/-- C10 witness: the delegation at a concrete marked context. -/
theorem c10_marked_cnf_delegated_witness :
    on_command_error sampleState markedCtx ⟨false, ErrVariant.commandNotFound "m"⟩ =
      ⟨[Effect.send
          "Sorry, an unexpected error occurred. Please let us know!\n\n```CommandNotFound: m```",
        Effect.logMsg LogLevel.error "Error executing command invoked by aru: !hlep me"],
        TermKind.reraise "CommandNotFound" "m", false⟩ :=
  c10_marked_cnf_delegated sampleState markedCtx "m" rfl

/-- C10 counterexample: a `CommandNotFound` carrying the `handled` marker,
dispatched on a marker-carrying context, is not delegated to the responder
and not re-raised — it hits the `handled` short-circuit (step 1 of the
dispatch order) instead, so the claim's universal statement fails. -/
theorem c10_handled_cnf_not_delegated :
    markedCtx.invokedFromErrorHandler = true ∧
    on_command_error sampleState markedCtx ⟨true, ErrVariant.commandNotFound "m"⟩ =
      ⟨[Effect.logMsg LogLevel.trace
          "Command None had its error already handled locally; ignoring."],
        TermKind.normal, false⟩ :=
  ⟨rfl, rfl⟩

/-- C3 (amended): every dispatch emits at least one effect (message or log)
or terminates abnormally (the deliberate re-raise, or an uncaught
Python-level exception on the defect paths), except exactly the two
`CommandNotFound` no-effect paths: the verification channel, and both tag
collaborators absent — where nothing at all happens. -/
theorem c3_dispatch_produces_effect_or_exception (st : BotState) (ctx : Ctx) (e : Err) :
    (on_command_error st ctx e).effects ≠ [] ∨
    (on_command_error st ctx e).term ≠ TermKind.normal ∨
    (e.handled = false ∧ ctx.invokedFromErrorHandler = false ∧
      (∃ m, e.variant = ErrVariant.commandNotFound m) ∧
      (ctx.channelId = Channels_verification ∨
        (st.tagsCogPresent = false ∧ st.tagsGetCommandPresent = false))) := by
  rcases e with ⟨hd, v⟩
  cases hd
  case true =>
    left
    simp [on_command_error, onCommandErrorFuel, handledOutcome]
  case false =>
    cases v
    case commandNotFound m =>
      cases hm : ctx.invokedFromErrorHandler
      case true =>
        left
        simp [on_command_error, onCommandErrorFuel, hm, dispatchChain,
          handle_unexpected_error]
      case false =>
        by_cases hchan : ctx.channelId = Channels_verification
        · right; right
          exact ⟨rfl, rfl, ⟨m, rfl⟩, Or.inl hchan⟩
        by_cases hcc : st.tagsCogPresent = false ∧ st.tagsGetCommandPresent = false
        · right; right
          exact ⟨rfl, rfl, ⟨m, rfl⟩, Or.inr hcc⟩
        obtain ⟨o, ho, hshape, _⟩ := fallback_shape st ctx hchan hcc
        have hoc : on_command_error st ctx ⟨false, ErrVariant.commandNotFound m⟩ = o := by
          rw [unmarked_cnf_eq st ctx m hm, ho]
          rfl
        rcases hshape with h | h
        · left
          rw [hoc]
          exact h
        · right; left
          rw [hoc]
          exact h
    case commandInvokeError inner =>
      cases inner
      case api status body =>
        left
        have hbase : on_command_error st ctx
            ⟨false, ErrVariant.commandInvokeError (InnerError.api status body)⟩ =
            dispatchChain ctx (ErrVariant.commandInvokeError (InnerError.api status body)) :=
          rfl
        rw [hbase]
        simp only [dispatchChain]
        repeat' split
        all_goals simp
      case nonApi tn m =>
        left
        simp [on_command_error, onCommandErrorFuel, dispatchChain, handle_unexpected_error]
    all_goals
      left
      simp [on_command_error, onCommandErrorFuel, dispatchChain, handle_unexpected_error]

/-- C3 counterexample: a `CommandNotFound` dispatched in the verification
channel produces no message, no log, and no re-raise — none of the outcomes
the dispatch table allows. -/
theorem c3_verification_noop :
    verifCtx.channelId = Channels_verification ∧
    on_command_error sampleState verifCtx ⟨false, ErrVariant.commandNotFound "m"⟩ =
      ⟨[], TermKind.normal, false⟩ :=
  ⟨rfl, rfl⟩

/-- C4 (amended): the line 80 guard only requires at least one of the Tags
cog and the `tags get` command: when both are absent the handler takes no
action at all (no message, no log, no marker mutation); when at least one is
present it proceeds — observable through the marker mutation of line 83 —
even though the claim says both are required. -/
theorem c4_guard_requires_neither (st : BotState) (ctx : Ctx) (m : String)
    (hchan : ¬ctx.channelId = Channels_verification)
    (hmark : ctx.invokedFromErrorHandler = false) :
    (st.tagsCogPresent = false ∧ st.tagsGetCommandPresent = false →
      on_command_error st ctx ⟨false, ErrVariant.commandNotFound m⟩ =
        ⟨[], TermKind.normal, false⟩) ∧
    (¬(st.tagsCogPresent = false ∧ st.tagsGetCommandPresent = false) →
      (on_command_error st ctx ⟨false, ErrVariant.commandNotFound m⟩).ctxMarkerSet =
        true) := by
  constructor
  · intro hcc
    have hfb : fallback (onCommandErrorFuel 1 st) st ctx =
        some ⟨[], TermKind.normal, false⟩ := by
      unfold fallback
      rw [if_neg hchan, if_pos hcc]
    rw [unmarked_cnf_eq st ctx m hmark, hfb]
    rfl
  · intro hcc
    obtain ⟨o, ho, _, hset⟩ := fallback_shape st ctx hchan hcc
    rw [unmarked_cnf_eq st ctx m hmark, ho]
    exact hset

/-- C4 witness: with both collaborators absent nothing happens; with only
the Tags cog present the handler proceeds and mutates the context marker. -/
theorem c4_guard_requires_neither_witness :
    on_command_error noTagsState sampleCtx ⟨false, ErrVariant.commandNotFound "m"⟩ =
      ⟨[], TermKind.normal, false⟩ ∧
    (on_command_error cogOnlyState sampleCtx
        ⟨false, ErrVariant.commandNotFound "m"⟩).ctxMarkerSet = true :=
  ⟨(c4_guard_requires_neither noTagsState sampleCtx "m" (by decide) rfl).1 ⟨rfl, rfl⟩,
    (c4_guard_requires_neither cogOnlyState sampleCtx "m" (by decide) rfl).2
      (by simp [cogOnlyState])⟩

/-- C4 counterexample: with the Tags cog present but the `tags get` command
absent — so NOT both collaborators exist — the handler does not stop at the
guard: it mutates the context marker and proceeds into the fallback (where
calling `can_run` on the missing command raises an `AttributeError`),
refuting "requires both ... to exist in the registry before proceeding". -/
theorem c4_one_collaborator_proceeds :
    cogOnlyState.tagsCogPresent = true ∧
    cogOnlyState.tagsGetCommandPresent = false ∧
    on_command_error cogOnlyState sampleCtx ⟨false, ErrVariant.commandNotFound "m"⟩ =
      ⟨[], TermKind.pyError "AttributeError", true⟩ :=
  ⟨rfl, rfl, by decide⟩

/-- C5: for a `CommandInvokeError` wrapping an API-response error, the
handler branches on the numeric HTTP status exactly as claimed: 404 sends
the "nothing matching your query" message and nothing else; 400 logs the
response body at debug level then sends the "malformed request" message;
500–599 inclusive sends the "internal issue with the API" message and logs a
warning; any other status sends a message containing the literal status code
and logs a warning. -/
theorem c5_api_status_dispatch (st : BotState) (ctx : Ctx) (status : Nat) (body : String) :
    (status = 404 →
      on_command_error st ctx
          ⟨false, ErrVariant.commandInvokeError (InnerError.api status body)⟩ =
        ⟨[Effect.send "There does not seem to be anything matching your query."],
          TermKind.normal, false⟩) ∧
    (status = 400 →
      on_command_error st ctx
          ⟨false, ErrVariant.commandInvokeError (InnerError.api status body)⟩ =
        ⟨[Effect.logMsg LogLevel.debug
            ("API responded with 400 for command " ++ cmdStr ctx ++ ": " ++ body ++ "."),
          Effect.send "According to the API, your request is malformed."],
          TermKind.normal, false⟩) ∧
    (500 ≤ status → status < 600 →
      on_command_error st ctx
          ⟨false, ErrVariant.commandInvokeError (InnerError.api status body)⟩ =
        ⟨[Effect.send "Sorry, there seems to be an internal issue with the API.",
          Effect.logMsg LogLevel.warning
            ("API responded with " ++ toString status ++ " for command " ++ cmdStr ctx)],
          TermKind.normal, false⟩) ∧
    (¬status = 404 → ¬status = 400 → ¬(500 ≤ status ∧ status < 600) →
      on_command_error st ctx
          ⟨false, ErrVariant.commandInvokeError (InnerError.api status body)⟩ =
        ⟨[Effect.send
            ("Got an unexpected status code from the API (`" ++ toString status ++ "`)."),
          Effect.logMsg LogLevel.warning
            ("Unexpected API response for command " ++ cmdStr ctx ++ ": " ++
              toString status)], TermKind.normal, false⟩) := by
  have hbase : on_command_error st ctx
      ⟨false, ErrVariant.commandInvokeError (InnerError.api status body)⟩ =
      dispatchChain ctx (ErrVariant.commandInvokeError (InnerError.api status body)) := rfl
  refine ⟨?_, ?_, ?_, ?_⟩
  · rintro rfl
    rw [hbase]
    rfl
  · rintro rfl
    rw [hbase]
    rfl
  · intro h1 h2
    rw [hbase]
    simp only [dispatchChain]
    rw [if_neg (by omega), if_neg (by omega), if_pos ⟨h1, h2⟩]
  · intro h1 h2 h3
    rw [hbase]
    simp only [dispatchChain]
    rw [if_neg h1, if_neg h2, if_neg h3]

/-- C6 (amended): the fallback fuzzy match returns at most one candidate;
any returned candidate comes from the candidate list, meets difflib's
default similarity cutoff `0.6`, and is a closest candidate (its ratio
dominates every candidate's).  And on the no-tag path the handler is driven
exactly by `get_close_matches1` over the non-hidden names and aliases: an
empty result crashes with `IndexError` (no guard), a non-empty result's head
becomes the suggestion.  (The original claim's "no similarity threshold
beyond closest available" is false: candidates under the cutoff are never
selected — see the counterexample.) -/
theorem c6_top1_cutoff_match :
    (∀ (word : String) (cands : List String),
      (get_close_matches1 word cands).length ≤ 1 ∧
      ∀ x ∈ get_close_matches1 word cands,
        x ∈ cands ∧
        meetsCutoff (2 * totalMatched x.data word.data) (x.length + word.length) = true ∧
        ∀ y ∈ cands,
          ratioQ (2 * totalMatched y.data word.data) (y.length + word.length) ≤
            ratioQ (2 * totalMatched x.data word.data) (x.length + word.length)) ∧
    (∀ (st : BotState) (ctx : Ctx) (m : String),
      ¬ctx.channelId = Channels_verification →
      ctx.invokedFromErrorHandler = false →
      st.tagsCogPresent = true →
      st.tagsGetCommandPresent = true →
      st.canRun "tags get" { ctx with invokedFromErrorHandler := true } = Except.ok true →
      st.displayTag { ctx with invokedFromErrorHandler := true } ctx.invokedWith = false →
      (get_close_matches1 ctx.invokedWith (rawCommandsOf st.commands) = [] →
        on_command_error st ctx ⟨false, ErrVariant.commandNotFound m⟩ =
          ⟨[], TermKind.pyError "IndexError", true⟩) ∧
      (∀ s rest, get_close_matches1 ctx.invokedWith (rawCommandsOf st.commands) = s :: rest →
        st.getCommandFound s = true →
        on_command_error st ctx ⟨false, ErrVariant.commandNotFound m⟩ =
          ⟨[Effect.sendEmbed "Did you mean:"
              (replaceFirst ctx.messageContent ctx.invokedWith s) 7],
            TermKind.normal, true⟩)) := by
  constructor
  · intro word cands
    unfold get_close_matches1
    cases hsc : cands.filterMap (scoreCandidate word) with
    | nil => simp
    | cons c cs =>
      refine ⟨by simp, ?_⟩
      intro x hx
      have hwmem : nlargest1 c cs ∈ cands.filterMap (scoreCandidate word) := by
        rw [hsc]
        rcases nlargest1_mem c cs with h | h
        · rw [h]
          exact List.mem_cons_self _ _
        · exact List.mem_cons_of_mem _ h
      obtain ⟨a, ha, hsome⟩ := List.mem_filterMap.mp hwmem
      obtain ⟨hword, hnum, hden, hcut⟩ := scoreCandidate_mem hsome
      simp only [List.mem_singleton] at hx
      subst hx
      rw [hword, ← hnum, ← hden]
      refine ⟨ha, hcut, ?_⟩
      intro y hy
      by_cases hcuty :
        meetsCutoff (2 * totalMatched y.data word.data) (y.length + word.length) = true
      · have hymem : (⟨y, 2 * totalMatched y.data word.data,
            y.length + word.length⟩ : Scored) ∈ cands.filterMap (scoreCandidate word) :=
          List.mem_filterMap.mpr ⟨y, hy, scoreCandidate_of_cutoff hcuty⟩
        rw [hsc] at hymem
        have hge := nlargest1_ge c cs
        rcases List.mem_cons.mp hymem with heq | hmem
        · have hyc : ratioQ (2 * totalMatched y.data word.data) (y.length + word.length) =
              ratioQ c.num c.den := by
            rw [← heq]
          rw [hyc]
          exact hge.1
        · exact hge.2 _ hmem
      · have hylt : ¬((3 : ℚ) / 5 ≤
            ratioQ (2 * totalMatched y.data word.data) (y.length + word.length)) :=
          fun hq => hcuty ((meetsCutoff_iff _ _).mpr hq)
        have hxge : (3 : ℚ) / 5 ≤
            ratioQ (nlargest1 c cs).num (nlargest1 c cs).den :=
          (meetsCutoff_iff _ _).mp hcut
        exact le_trans (le_of_lt (not_le.mp hylt)) hxge
  · intro st ctx m hchan hmark hcog hcmd hcan hdisp
    have hcc : ¬(st.tagsCogPresent = false ∧ st.tagsGetCommandPresent = false) := by
      simp [hcog]
    constructor
    · intro hnil
      rw [unmarked_cnf_eq st ctx m hmark]
      unfold fallback
      rw [if_neg hchan, if_neg hcc]
      simp only [hcog, hcmd, hcan, hdisp, hnil]
      simp
    · intro s rest hcons hfound
      rw [unmarked_cnf_eq st ctx m hmark]
      unfold fallback
      rw [if_neg hchan, if_neg hcc]
      simp only [hcog, hcmd, hcan, hdisp, hcons, hfound]
      simp

/-- C6 witness: in `sampleState` the mistyped `hlep` fuzzy-matches the
registered command `help` and the suggestion echoes the message text with
the first occurrence of `hlep` replaced by `help`. -/
theorem c6_top1_cutoff_match_witness :
    on_command_error sampleState sampleCtx ⟨false, ErrVariant.commandNotFound "m"⟩ =
      ⟨[Effect.sendEmbed "Did you mean:"
          (replaceFirst sampleCtx.messageContent sampleCtx.invokedWith "help") 7],
        TermKind.normal, true⟩ :=
  (c6_top1_cutoff_match.2 sampleState sampleCtx "m" (by decide) rfl rfl rfl rfl rfl).2
    "help" [] (by decide) rfl

/-- C6 counterexample: a non-empty candidate list (`["zzzz"]`, similarity
ratio `0` against `abc`) from which the closest candidate is NOT selected —
`get_close_matches` applies its default cutoff `0.6` — so the handler, far
from suggesting the closest candidate, crashes with `IndexError`. -/
theorem c6_below_cutoff_not_selected :
    rawCommandsOf zState.commands = ["zzzz"] ∧
    get_close_matches1 abcCtx.invokedWith (rawCommandsOf zState.commands) = [] ∧
    on_command_error zState abcCtx ⟨false, ErrVariant.commandNotFound "m"⟩ =
      ⟨[], TermKind.pyError "IndexError", true⟩ :=
  ⟨by decide, by decide, by decide⟩

/-- C7: the fallback has no guard against an empty fuzzy-match result: at a
concrete input (the mistyped `help` against the sole visible command
`zzzz`), `get_close_matches` returns the empty list and
`similar_command_data[0]` (line 106) fails with an uncaught `IndexError`. -/
theorem c7_empty_matches_index_error :
    rawCommandsOf zState.commands ≠ [] ∧
    get_close_matches1 helpCtx.invokedWith (rawCommandsOf zState.commands) = [] ∧
    on_command_error zState helpCtx ⟨false, ErrVariant.commandNotFound "m"⟩ =
      ⟨[], TermKind.pyError "IndexError", true⟩ :=
  ⟨by decide, by decide, by decide⟩

/-- C5 witness: the 404 and 503 rows of the dispatch at a concrete context. -/
theorem c5_api_status_dispatch_witness :
    on_command_error sampleState sampleCtx
        ⟨false, ErrVariant.commandInvokeError (InnerError.api 404 "")⟩ =
      ⟨[Effect.send "There does not seem to be anything matching your query."],
        TermKind.normal, false⟩ ∧
    on_command_error sampleState sampleCtx
        ⟨false, ErrVariant.commandInvokeError (InnerError.api 503 "")⟩ =
      ⟨[Effect.send "Sorry, there seems to be an internal issue with the API.",
        Effect.logMsg LogLevel.warning "API responded with 503 for command None"],
        TermKind.normal, false⟩ :=
  ⟨(c5_api_status_dispatch sampleState sampleCtx 404 "").1 rfl,
    (c5_api_status_dispatch sampleState sampleCtx 503 "").2.2.1 (by decide) (by decide)⟩

end PyBot
